import Mathlib

/-!
Verification of the weather-station HTTP API (FastAPI application in
`app/main.py`, `app/schemas.py`, `app/exceptions.py`,
`app/exception_handlers.py`).

Two models are developed:

1. A request-pipeline model: the stored observation/station rows are
   abstracted to the columns the queries inspect (`id`, `station_id`,
   calendar date of `observation_time`); the four route handlers are
   transcribed from `app/main.py`, and each handler additionally records
   the storage-connection events it performs (connect / query / close),
   so that resource-handling facts can be stated.  The SQL lookups
   themselves live in `app/queries/…` which is not part of the sources
   at hand, so each lookup is modelled from the spec (see the doc
   comment of each `get_…` definition).

2. A row-materialization model: raw storage rows (`RawVal`) are turned
   into typed `Observation` / `Station` values exactly as the dict
   comprehension in `app/main.py` does — positionally over the declared
   field order of the pydantic models in `app/schemas.py` — with the
   `EmptyStrToNone` validator of `app/schemas.py` and the coercion
   behaviour of the declared field unions.
-/

/-- Storage-connection events performed by a handler, in order. -/
inductive Ev
  | connect
  | query
  | close
  deriving DecidableEq

/-- The JSON body produced by the exception handlers in
`app/exception_handlers.py`: fields `message`, `type`, `status_code`. -/
structure ErrorBody where
  message : String
  type : String
  status_code : Nat
  deriving DecidableEq

/-- Body for `NotFoundException` (`app/exceptions.py`): detail
"Resource not found.", type "api_error", HTTP 404. -/
def notFoundBody : ErrorBody :=
  { message := "Resource not found.", type := "api_error", status_code := 404 }

/-- Body for `BadQueryParameterException` (`app/exceptions.py`): detail
"Bad query parameter.", type "api_error", HTTP 422. -/
def badQueryParameterBody : ErrorBody :=
  { message := "Bad query parameter.", type := "api_error", status_code := 422 }

/-- Outcome of a request: a value, a handled API error rendered by an
exception handler, or an unhandled storage exception propagating out of
the handler (a 5xx-class failure). -/
inductive Outcome (α : Type)
  | ok (value : α)
  | err (body : ErrorBody)
  | fatal
  deriving DecidableEq

/-- An observation row as seen by the observation queries: its `id`
string, its `station_id`, and the calendar date (as an abstract day
number) on which its `observation_time` falls. -/
structure ORow where
  id : String
  station_id : Int
  date : Nat
  deriving DecidableEq

/-- A station row as seen by the station queries. -/
structure StationRow where
  id : Int
  name : String
  deriving DecidableEq

/-- The storage state: the observation rows and station rows in storage
order, and a flag telling whether the store is reachable — when `up` is
`false`, executing a query raises (the `StorageUnavailable` condition). -/
structure Store where
  rows : List ORow
  stations : List StationRow
  up : Bool
  deriving DecidableEq

/-- Python truthiness of the optional `starting_after` string parameter:
`None` and the empty string are falsy, every other string is truthy. -/
def truthy : Option String → Bool
  | none => false
  | some s => decide (s ≠ "")

/-- Modelled from the spec: the cursor step shared by the
`…starting_after` lookups (`app/queries/…`, not among the sources).
"Return observations strictly after the observation identified by
`starting_after` (exclusive) … Cursor is resolved by id lookup, not by
numeric offset"; if the id does not occur, "the downstream query
returns zero rows". -/
def afterId : List ORow → String → List ORow
  | [], _ => []
  | o :: rest, s => if o.id = s then rest else afterId rest s

/-- Modelled from the spec: `get_observations` (`app/queries/…`, not
among the sources) — "Return first `limit` observations (by
id/insertion order)". -/
def get_observations (rows : List ORow) (limit : Nat) : List ORow :=
  rows.take limit

/-- Modelled from the spec: `get_observations_starting_after`
(`app/queries/…`, not among the sources) — `limit` observations
strictly after the cursor row. -/
def get_observations_starting_after (rows : List ORow) (limit : Nat) (id : String) :
    List ORow :=
  (afterId rows id).take limit

/-- Modelled from the spec: `get_observations_created_at`
(`app/queries/…`, not among the sources) — "first `limit` observations
whose `observation_time` falls on the given calendar date". -/
def get_observations_created_at (rows : List ORow) (limit : Nat) (created_at : Nat) :
    List ORow :=
  (rows.filter fun o => decide (o.date = created_at)).take limit

/-- Modelled from the spec: `get_observations_created_at_starting_after`
(`app/queries/…`, not among the sources) — "First restrict to
observations on the given date …, then skip to strictly after
`starting_after` within that restricted, ordered set, then take
`limit`". -/
def get_observations_created_at_starting_after (rows : List ORow) (limit : Nat)
    (created_at : Nat) (id : String) : List ORow :=
  (afterId (rows.filter fun o => decide (o.date = created_at)) id).take limit

/-- Modelled from the spec: the station scope — "restriction of an
observation query to a single station's rows", "ANDed as the
first-applied filter". -/
def station_scope (rows : List ORow) (station_id : Int) : List ORow :=
  rows.filter fun o => decide (o.station_id = station_id)

/-- Modelled from the spec: `get_observations_for_station`
(`app/queries/…`, not among the sources). -/
def get_observations_for_station (rows : List ORow) (limit : Nat) (station_id : Int) :
    List ORow :=
  (station_scope rows station_id).take limit

/-- Modelled from the spec: `get_observations_for_station_starting_after`
(`app/queries/…`, not among the sources). -/
def get_observations_for_station_starting_after (rows : List ORow) (limit : Nat)
    (station_id : Int) (id : String) : List ORow :=
  (afterId (station_scope rows station_id) id).take limit

/-- Modelled from the spec: `get_observations_for_station_created_at`
(`app/queries/…`, not among the sources). -/
def get_observations_for_station_created_at (rows : List ORow) (limit : Nat)
    (station_id : Int) (created_at : Nat) : List ORow :=
  ((station_scope rows station_id).filter fun o => decide (o.date = created_at)).take limit

/-- Modelled from the spec:
`get_observations_for_station_created_at_starting_after`
(`app/queries/…`, not among the sources) — station scope first, then
date, then cursor, then limit. -/
def get_observations_for_station_created_at_starting_after (rows : List ORow)
    (limit : Nat) (station_id : Int) (created_at : Nat) (id : String) : List ORow :=
  (afterId ((station_scope rows station_id).filter fun o => decide (o.date = created_at))
    id).take limit

/-- The `if starting_after and created: … elif … elif … else …` chain of
the `/weather` handler in `app/main.py`, selecting exactly one of the
four unscoped query shapes.  In a taken branch the optional parameters
are known to be present; `getD` extracts them (the default is never
used there). -/
def select_observations (rows : List ORow) (starting_after : Option String)
    (created : Option Nat) (limit : Nat) : List ORow :=
  if truthy starting_after && created.isSome then
    get_observations_created_at_starting_after rows limit (created.getD 0)
      (starting_after.getD "")
  else if truthy starting_after then
    get_observations_starting_after rows limit (starting_after.getD "")
  else if created.isSome then
    get_observations_created_at rows limit (created.getD 0)
  else
    get_observations rows limit

/-- The same chain for the `/stations/{id}/weather` handler in
`app/main.py`, over the station-scoped query shapes. -/
def select_observations_for_station (rows : List ORow) (station_id : Int)
    (starting_after : Option String) (created : Option Nat) (limit : Nat) : List ORow :=
  if truthy starting_after && created.isSome then
    get_observations_for_station_created_at_starting_after rows limit station_id
      (created.getD 0) (starting_after.getD "")
  else if truthy starting_after then
    get_observations_for_station_starting_after rows limit station_id
      (starting_after.getD "")
  else if created.isSome then
    get_observations_for_station_created_at rows limit station_id (created.getD 0)
  else
    get_observations_for_station rows limit station_id

/-- The `GET /weather` handler of `app/main.py`: validate `limit`, open
a connection, run the selected query, close the connection, then either
raise `NotFoundException` on an empty result or return the rows.  The
first component records the connection events in order; when the store
is down the query raises and the exception propagates before
`conn.close()` is reached. -/
def weather (st : Store) (starting_after : Option String) (created : Option Nat)
    (limit : Int) : List Ev × Outcome (List ORow) :=
  if limit > 100 ∨ limit < 1 then ([], .err badQueryParameterBody)
  else if st.up = false then ([.connect, .query], .fatal)
  else
    let results := select_observations st.rows starting_after created limit.toNat
    if results.isEmpty then ([.connect, .query, .close], .err notFoundBody)
    else ([.connect, .query, .close], .ok results)

/-- The `GET /stations/{id}/weather` handler of `app/main.py` (the
second function named `weather` in the source): identical to the
unscoped handler except that the station-scoped query shapes are used. -/
def weather_for_station (st : Store) (id : Int) (starting_after : Option String)
    (created : Option Nat) (limit : Int) : List Ev × Outcome (List ORow) :=
  if limit > 100 ∨ limit < 1 then ([], .err badQueryParameterBody)
  else if st.up = false then ([.connect, .query], .fatal)
  else
    let results := select_observations_for_station st.rows id starting_after created
      limit.toNat
    if results.isEmpty then ([.connect, .query, .close], .err notFoundBody)
    else ([.connect, .query, .close], .ok results)

/-- The `GET /stations` handler of `app/main.py`: open a connection, run
`get_stations` (modelled from the spec as returning every station row
in storage order), close, and return the materialized list.  Note that
this handler performs no emptiness check. -/
def get_stations_handler (st : Store) : List Ev × Outcome (List StationRow) :=
  if st.up = false then ([.connect, .query], .fatal)
  else ([.connect, .query, .close], .ok st.stations)

/-- The `GET /stations/{id}` handler of `app/main.py`: run `get_station`
(modelled from the spec as the single-row lookup of the first station
row with the given id), close the connection, then return the row if
one was found and raise `NotFoundException` otherwise. -/
def get_station_handler (st : Store) (id : Int) : List Ev × Outcome StationRow :=
  if st.up = false then ([.connect, .query], .fatal)
  else
    match st.stations.find? (fun r => decide (r.id = id)) with
    | some r => ([.connect, .query, .close], .ok r)
    | none => ([.connect, .query, .close], .err notFoundBody)

/-!
## Row materialization (`app/schemas.py` and the loops in `app/main.py`)

A raw storage row is an ordered tuple of SQLite values: NULL, INTEGER,
REAL or TEXT.  The handler loops build each entity with
`Model(**{key: row[i] for i, key in enumerate(Model.__fields__.keys())})`,
i.e. the i-th column is bound to the i-th declared field, and pydantic
then validates each value against the declared field type.
-/

/-- A raw SQLite column value.  REAL values are represented by rationals
(no floating-point arithmetic is performed anywhere in the system: the
values are only moved, compared and re-serialized). -/
inductive RawVal
  | null
  | intV (n : Int)
  | realV (q : Rat)
  | textV (s : String)
  deriving DecidableEq

/-- A validated sensor value: an integer, a numeric (REAL) value, or a
non-empty string that no numeric coercion accepted. -/
inductive SBase
  | i (n : Int)
  | r (q : Rat)
  | s (str : String)
  deriving DecidableEq

/-- The value of a nullable sensor field after validation. -/
abbrev SVal : Type := Option SBase

/-- Truncation toward zero, as Python `int(float)` performs it. -/
def ratTrunc (q : Rat) : Int :=
  if 0 ≤ q then q.floor else -((-q).floor)

/-- Value of a decimal digit character. -/
def digitVal (c : Char) : Option Nat :=
  if '0' ≤ c ∧ c ≤ '9' then some (c.toNat - '0'.toNat) else none

/-- Reads a run of decimal digits into an accumulator; fails on any
non-digit character. -/
def digitsVal : List Char → Nat → Option Nat
  | [], acc => some acc
  | c :: cs, acc =>
      match digitVal c with
      | some d => digitsVal cs (acc * 10 + d)
      | none => none

/-- A non-empty all-digit character run as a number. -/
def natOfDigits (cs : List Char) : Option Nat :=
  if cs.isEmpty then none else digitsVal cs 0

/-- Python `int(str)`: an optional sign followed by decimal digits
(whitespace tolerance and underscore separators are not modelled; no
stored value uses them). -/
def pyIntOfString (s : String) : Option Int :=
  match s.data with
  | '-' :: cs => (natOfDigits cs).map fun n => -(n : Int)
  | '+' :: cs => (natOfDigits cs).map fun n => (n : Int)
  | cs => (natOfDigits cs).map fun n => (n : Int)

/-- The unsigned part of a Python decimal literal: digits with an
optional single point and at least one digit overall. -/
def decCore (cs : List Char) : Option Rat :=
  match cs.span fun c => decide (c ≠ '.') with
  | (w, []) => (natOfDigits w).map fun n => (n : Rat)
  | (w, _ :: f) =>
      if w.isEmpty ∧ f.isEmpty then none
      else if f.contains '.' then none
      else
        match (if w.isEmpty then some 0 else digitsVal w 0),
              (if f.isEmpty then some 0 else digitsVal f 0) with
        | some a, some b => some ((a : Rat) + (b : Rat) / ((10 : Rat) ^ f.length))
        | _, _ => none

/-- Python `float(str)` restricted to plain decimal literals: an
optional sign, digits, an optional fractional part (exponent forms and
inf/nan are not modelled; no stored value uses them). -/
def pyFloatOfString (s : String) : Option Rat :=
  match s.data with
  | '-' :: cs => (decCore cs).map fun q => -q
  | '+' :: cs => decCore cs
  | cs => decCore cs

/-- Validation of a sensor field declared `Union[int, None, EmptyStrToNone]`
in `app/schemas.py`.  pydantic tries the union members in declared
order: the `int` coercion first (accepting integers, REALs truncated
toward zero, and integer-literal text), then `None`, then
`EmptyStrToNone`, whose validators (`str_validator` then
`empty_to_none`) keep a non-empty string and turn the empty string into
`None`. -/
def sensorIntVal : RawVal → SVal
  | .null => none
  | .intV n => some (.i n)
  | .realV q => some (.i (ratTrunc q))
  | .textV s =>
      match pyIntOfString s with
      | some n => some (.i n)
      | none => if s = "" then none else some (.s s)

/-- Validation of a sensor field declared `Union[float, None, EmptyStrToNone]`
in `app/schemas.py`: the `float` coercion first, then `None`, then
`EmptyStrToNone`. -/
def sensorFloatVal : RawVal → SVal
  | .null => none
  | .intV n => some (.r (n : Rat))
  | .realV q => some (.r q)
  | .textV s =>
      match pyFloatOfString s with
      | some q => some (.r q)
      | none => if s = "" then none else some (.s s)

/-- Validation of a required `str` field (pydantic `str_validator`):
text is kept, integers are coerced to their decimal text (the stored
`id`/`name` columns are TEXT, so the REAL-to-text coercion is never
exercised and is left out). -/
def strField : RawVal → Option String
  | .textV s => some s
  | .intV n => some (toString n)
  | _ => none

/-- Validation of a required `int` field. -/
def intField : RawVal → Option Int
  | .intV n => some n
  | .realV q => some (ratTrunc q)
  | .textV s => pyIntOfString s
  | .null => none

/-- Validation of a required `float` field. -/
def floatField : RawVal → Option Rat
  | .intV n => some (n : Rat)
  | .realV q => some q
  | .textV s => pyFloatOfString s
  | .null => none

/-- Validation of the required `datetime` field: the stored ISO text is
kept opaque (pydantic parses it into a `datetime`; the system never
computes with it, it is only carried and re-serialized). -/
def datetimeField : RawVal → Option String
  | .textV s => some s
  | _ => none

/-- The `Observation` pydantic model of `app/schemas.py`, fields in
declaration order. -/
structure Observation where
  id : String
  station_id : Int
  observation_time : String
  temperature_average : SVal
  temperature_high : SVal
  temperature_low : SVal
  humidity_average : SVal
  barometric_pressure : SVal
  wind_speed_average : SVal
  wind_speed_high : SVal
  wind_direction_high : SVal
  wind_direction_average : SVal
  radiation_average : SVal
  radiation_high : SVal
  rain : SVal
  rain_last_hour : SVal
  temperature_soil_2 : SVal
  temperature_soil_5 : SVal
  temperature_soil_10 : SVal
  temperature_soil_15 : SVal
  moisture_soil_2 : SVal
  moisture_soil_5 : SVal
  moisture_soil_10 : SVal
  moisture_soil_15 : SVal
  deriving DecidableEq

/-- The `Station` pydantic model of `app/schemas.py`. -/
structure Station where
  id : Int
  name : String
  latitude : Rat
  longitude : Rat
  deriving DecidableEq

/-- The materialization loop of the weather handlers in `app/main.py`:
`Observation(**{key: observation[i] for i, key in enumerate(Observation.__fields__.keys())})`.
Column `i` is bound to declared field `i`; a row with fewer than 24
columns raises (modelled as `none`); extra columns are ignored.  The
three required fields fail validation on ill-typed values; the 21
sensor validators are total. -/
def materializeObservation : List RawVal → Option Observation
  | v0 :: v1 :: v2 :: v3 :: v4 :: v5 :: v6 :: v7 :: v8 :: v9 :: v10 :: v11 :: v12 ::
      v13 :: v14 :: v15 :: v16 :: v17 :: v18 :: v19 :: v20 :: v21 :: v22 :: v23 :: _ =>
    match strField v0, intField v1, datetimeField v2 with
    | some idv, some sid, some ot =>
      some
      { id := idv
        station_id := sid
        observation_time := ot
        temperature_average := sensorIntVal v3
        temperature_high := sensorIntVal v4
        temperature_low := sensorIntVal v5
        humidity_average := sensorIntVal v6
        barometric_pressure := sensorFloatVal v7
        wind_speed_average := sensorIntVal v8
        wind_speed_high := sensorIntVal v9
        wind_direction_high := sensorFloatVal v10
        wind_direction_average := sensorFloatVal v11
        radiation_average := sensorIntVal v12
        radiation_high := sensorIntVal v13
        rain := sensorIntVal v14
        rain_last_hour := sensorIntVal v15
        temperature_soil_2 := sensorIntVal v16
        temperature_soil_5 := sensorIntVal v17
        temperature_soil_10 := sensorIntVal v18
        temperature_soil_15 := sensorIntVal v19
        moisture_soil_2 := sensorIntVal v20
        moisture_soil_5 := sensorIntVal v21
        moisture_soil_10 := sensorIntVal v22
        moisture_soil_15 := sensorIntVal v23 }
    | _, _, _ => none
  | _ => none

/-- The materialization loop of the station handlers in `app/main.py`:
`Station(**{key: station[i] for i, key in enumerate(Station.__fields__.keys())})`. -/
def materializeStation : List RawVal → Option Station
  | w0 :: w1 :: w2 :: w3 :: _ =>
    match intField w0, strField w1, floatField w2, floatField w3 with
    | some idv, some namev, some latv, some lonv =>
      some { id := idv, name := namev, latitude := latv, longitude := lonv }
    | _, _, _, _ => none
  | _ => none

/-- The 21 nullable sensor fields of an `Observation`, in declaration
order (field k of this list is declared field 3 + k of the model). -/
def obsSensorFields (o : Observation) : List SVal :=
  [o.temperature_average, o.temperature_high, o.temperature_low, o.humidity_average,
   o.barometric_pressure, o.wind_speed_average, o.wind_speed_high,
   o.wind_direction_high, o.wind_direction_average, o.radiation_average,
   o.radiation_high, o.rain, o.rain_last_hour, o.temperature_soil_2,
   o.temperature_soil_5, o.temperature_soil_10, o.temperature_soil_15,
   o.moisture_soil_2, o.moisture_soil_5, o.moisture_soil_10, o.moisture_soil_15]

/-- A JSON scalar as it appears in a serialized response body. -/
inductive JVal
  | null
  | jint (n : Int)
  | jnum (q : Rat)
  | jstr (s : String)
  deriving DecidableEq

/-- JSON encoding of a validated sensor value: absent readings
serialize to JSON null. -/
def svalToJ : SVal → JVal
  | none => .null
  | some (.i n) => .jint n
  | some (.r q) => .jnum q
  | some (.s s) => .jstr s

/-- The declared field names of `Observation`, in order. -/
def observationFieldNames : List String :=
  ["id", "station_id", "observation_time", "temperature_average", "temperature_high",
   "temperature_low", "humidity_average", "barometric_pressure", "wind_speed_average",
   "wind_speed_high", "wind_direction_high", "wind_direction_average",
   "radiation_average", "radiation_high", "rain", "rain_last_hour",
   "temperature_soil_2", "temperature_soil_5", "temperature_soil_10",
   "temperature_soil_15", "moisture_soil_2", "moisture_soil_5", "moisture_soil_10",
   "moisture_soil_15"]

/-- The declared field names of `Station`, in order. -/
def stationFieldNames : List String :=
  ["id", "name", "latitude", "longitude"]

/-- Modelled from the spec: response serialization of an `Observation`
(performed by the framework through `response_model`, outside the
sources at hand) — every declared field is emitted, in declaration
order, with null for absent sensor readings. -/
def serializeObservation (o : Observation) : List (String × JVal) :=
  [("id", .jstr o.id), ("station_id", .jint o.station_id),
   ("observation_time", .jstr o.observation_time),
   ("temperature_average", svalToJ o.temperature_average),
   ("temperature_high", svalToJ o.temperature_high),
   ("temperature_low", svalToJ o.temperature_low),
   ("humidity_average", svalToJ o.humidity_average),
   ("barometric_pressure", svalToJ o.barometric_pressure),
   ("wind_speed_average", svalToJ o.wind_speed_average),
   ("wind_speed_high", svalToJ o.wind_speed_high),
   ("wind_direction_high", svalToJ o.wind_direction_high),
   ("wind_direction_average", svalToJ o.wind_direction_average),
   ("radiation_average", svalToJ o.radiation_average),
   ("radiation_high", svalToJ o.radiation_high),
   ("rain", svalToJ o.rain),
   ("rain_last_hour", svalToJ o.rain_last_hour),
   ("temperature_soil_2", svalToJ o.temperature_soil_2),
   ("temperature_soil_5", svalToJ o.temperature_soil_5),
   ("temperature_soil_10", svalToJ o.temperature_soil_10),
   ("temperature_soil_15", svalToJ o.temperature_soil_15),
   ("moisture_soil_2", svalToJ o.moisture_soil_2),
   ("moisture_soil_5", svalToJ o.moisture_soil_5),
   ("moisture_soil_10", svalToJ o.moisture_soil_10),
   ("moisture_soil_15", svalToJ o.moisture_soil_15)]

/-- Modelled from the spec: response serialization of a `Station`. -/
def serializeStation (s : Station) : List (String × JVal) :=
  [("id", .jint s.id), ("name", .jstr s.name), ("latitude", .jnum s.latitude),
   ("longitude", .jnum s.longitude)]

/-!
## Helper lemmas about the pipeline model
-/

lemma afterId_sublist (l : List ORow) (s : String) : (afterId l s).Sublist l := by
  induction l with
  | nil => simp [afterId]
  | cons a rest ih =>
      by_cases h : a.id = s
      · simp only [afterId, h, if_pos]
        exact List.sublist_cons_self a rest
      · simpa [afterId, h] using ih.cons a

lemma afterId_subset (l : List ORow) (s : String) : afterId l s ⊆ l :=
  (afterId_sublist l s).subset

lemma afterId_id_ne (l : List ORow) (s : String)
    (hnd : (l.map fun o => o.id).Nodup) : ∀ o ∈ afterId l s, o.id ≠ s := by
  induction l with
  | nil => simp [afterId]
  | cons a rest ih =>
      simp only [List.map_cons, List.nodup_cons] at hnd
      by_cases h : a.id = s
      · intro o ho heq
        simp only [afterId, h, if_pos] at ho
        exact hnd.1 (h ▸ heq ▸ List.mem_map_of_mem (fun o => o.id) ho)
      · intro o ho
        simp only [afterId, h, if_neg, ite_false] at ho
        exact ih hnd.2 o ho

lemma afterId_eq_nil (l : List ORow) (s : String)
    (h : ∀ o ∈ l, o.id ≠ s) : afterId l s = [] := by
  induction l with
  | nil => rfl
  | cons a rest ih =>
      have ha : a.id ≠ s := h a (List.mem_cons_self a rest)
      simp only [afterId, ha, ite_false]
      exact ih fun o ho => h o (List.mem_cons_of_mem a ho)

lemma select_observations_sublist (rows : List ORow) (sa : Option String)
    (c : Option Nat) (lim : Nat) : (select_observations rows sa c lim).Sublist rows := by
  unfold select_observations get_observations get_observations_starting_after
    get_observations_created_at get_observations_created_at_starting_after
  split
  · exact (List.take_sublist _ _).trans
      ((afterId_sublist _ _).trans (List.filter_sublist _))
  split
  · exact (List.take_sublist _ _).trans (afterId_sublist _ _)
  split
  · exact (List.take_sublist _ _).trans (List.filter_sublist _)
  · exact List.take_sublist _ _

lemma select_observations_length (rows : List ORow) (sa : Option String)
    (c : Option Nat) (lim : Nat) : (select_observations rows sa c lim).length ≤ lim := by
  unfold select_observations get_observations get_observations_starting_after
    get_observations_created_at get_observations_created_at_starting_after
  split
  · exact List.length_take_le _ _
  split
  · exact List.length_take_le _ _
  split
  · exact List.length_take_le _ _
  · exact List.length_take_le _ _

lemma select_observations_for_station_sublist (rows : List ORow) (sid : Int)
    (sa : Option String) (c : Option Nat) (lim : Nat) :
    (select_observations_for_station rows sid sa c lim).Sublist rows := by
  unfold select_observations_for_station get_observations_for_station
    get_observations_for_station_starting_after get_observations_for_station_created_at
    get_observations_for_station_created_at_starting_after station_scope
  split
  · exact (List.take_sublist _ _).trans ((afterId_sublist _ _).trans
      ((List.filter_sublist _).trans (List.filter_sublist _)))
  split
  · exact (List.take_sublist _ _).trans
      ((afterId_sublist _ _).trans (List.filter_sublist _))
  split
  · exact (List.take_sublist _ _).trans
      ((List.filter_sublist _).trans (List.filter_sublist _))
  · exact (List.take_sublist _ _).trans (List.filter_sublist _)

lemma select_observations_for_station_length (rows : List ORow) (sid : Int)
    (sa : Option String) (c : Option Nat) (lim : Nat) :
    (select_observations_for_station rows sid sa c lim).length ≤ lim := by
  unfold select_observations_for_station get_observations_for_station
    get_observations_for_station_starting_after get_observations_for_station_created_at
    get_observations_for_station_created_at_starting_after
  split
  · exact List.length_take_le _ _
  split
  · exact List.length_take_le _ _
  split
  · exact List.length_take_le _ _
  · exact List.length_take_le _ _

lemma weather_eq (st : Store) (sa : Option String) (c : Option Nat) (limit : Int)
    (hup : st.up = true) (hv : ¬(limit > 100 ∨ limit < 1)) :
    weather st sa c limit =
      (if (select_observations st.rows sa c limit.toNat).isEmpty then
        ([Ev.connect, Ev.query, Ev.close], Outcome.err notFoundBody)
      else
        ([Ev.connect, Ev.query, Ev.close],
          Outcome.ok (select_observations st.rows sa c limit.toNat))) := by
  simp only [weather, hv, ite_false, hup, Bool.true_eq_false, if_false]

lemma weather_for_station_eq (st : Store) (i : Int) (sa : Option String)
    (c : Option Nat) (limit : Int) (hup : st.up = true) (hv : ¬(limit > 100 ∨ limit < 1)) :
    weather_for_station st i sa c limit =
      (if (select_observations_for_station st.rows i sa c limit.toNat).isEmpty then
        ([Ev.connect, Ev.query, Ev.close], Outcome.err notFoundBody)
      else
        ([Ev.connect, Ev.query, Ev.close],
          Outcome.ok (select_observations_for_station st.rows i sa c limit.toNat))) := by
  simp only [weather_for_station, hv, ite_false, hup, Bool.true_eq_false, if_false]

lemma weather_ok (st : Store) (sa : Option String) (c : Option Nat) (limit : Int)
    (l : List ORow) (h : (weather st sa c limit).2 = Outcome.ok l) :
    l = select_observations st.rows sa c limit.toNat := by
  by_cases hv : limit > 100 ∨ limit < 1
  · simp [weather, hv] at h
  by_cases hup : st.up = true
  · rw [weather_eq st sa c limit hup hv] at h
    split at h
    · simp at h
    · simpa using h.symm
  · simp only [Bool.not_eq_true] at hup
    simp [weather, hv, hup] at h

lemma weather_for_station_ok (st : Store) (i : Int) (sa : Option String)
    (c : Option Nat) (limit : Int) (l : List ORow)
    (h : (weather_for_station st i sa c limit).2 = Outcome.ok l) :
    l = select_observations_for_station st.rows i sa c limit.toNat := by
  by_cases hv : limit > 100 ∨ limit < 1
  · simp [weather_for_station, hv] at h
  by_cases hup : st.up = true
  · rw [weather_for_station_eq st i sa c limit hup hv] at h
    split at h
    · simp at h
    · simpa using h.symm
  · simp only [Bool.not_eq_true] at hup
    simp [weather_for_station, hv, hup] at h

/-!
## Concrete stores used by witnesses and counterexamples
-/

/-- A small store with three observations over two stations. -/
def demoStore : Store :=
  { rows := [⟨"obs_a", 1, 5⟩, ⟨"obs_b", 1, 5⟩, ⟨"obs_c", 2, 6⟩],
    stations := [⟨1, "north"⟩, ⟨2, "south"⟩],
    up := true }

/-- A store whose backing database is unreachable: every query raises. -/
def downStore : Store := { rows := [], stations := [], up := false }

/-- A reachable store holding no rows at all. -/
def emptyStore : Store := { rows := [], stations := [], up := true }

lemma notFound_ne_badQuery : notFoundBody ≠ badQueryParameterBody := by decide

/-- C10: branch selection in both weather handlers tests Python
truthiness, so an empty-string `starting_after` selects the same query
variant — and produces the same full response and connection trace — as
an absent one. -/
theorem empty_cursor_treated_as_absent (st : Store) (i : Int) (created : Option Nat)
    (limit : Int) :
    weather st (some "") created limit = weather st none created limit ∧
    weather_for_station st i (some "") created limit =
      weather_for_station st i none created limit := by
  constructor <;>
    simp [weather, weather_for_station, select_observations,
      select_observations_for_station, truthy]

/-- C2: an out-of-range `limit` yields the fixed `BadQueryParameterException`
body with no storage activity at all, regardless of the other
parameters; an in-range `limit` never yields that body. -/
theorem limit_validation_gate (st : Store) (i : Int) (sa : Option String)
    (created : Option Nat) (limit : Int) :
    ((limit > 100 ∨ limit < 1) →
      weather st sa created limit = ([], Outcome.err badQueryParameterBody) ∧
      weather_for_station st i sa created limit =
        ([], Outcome.err badQueryParameterBody)) ∧
    (1 ≤ limit → limit ≤ 100 →
      (weather st sa created limit).2 ≠ Outcome.err badQueryParameterBody ∧
      (weather_for_station st i sa created limit).2 ≠
        Outcome.err badQueryParameterBody) := by
  constructor
  · intro h
    constructor <;> simp [weather, weather_for_station, h]
  · intro h1 h2
    have hv : ¬(limit > 100 ∨ limit < 1) := by omega
    constructor
    · by_cases hup : st.up = true
      · rw [weather_eq st sa created limit hup hv]
        split
        · intro hc
          exact notFound_ne_badQuery (by injection hc)
        · simp
      · simp only [Bool.not_eq_true] at hup
        simp [weather, hv, hup]
    · by_cases hup : st.up = true
      · rw [weather_for_station_eq st i sa created limit hup hv]
        split
        · intro hc
          exact notFound_ne_badQuery (by injection hc)
        · simp
      · simp only [Bool.not_eq_true] at hup
        simp [weather_for_station, hv, hup]

theorem limit_validation_gate_witness :
    weather demoStore none none 101 = ([], Outcome.err badQueryParameterBody) ∧
    (weather demoStore none none 10).2 ≠ Outcome.err badQueryParameterBody :=
  ⟨((limit_validation_gate demoStore 1 none none 101).1 (by omega)).1,
   ((limit_validation_gate demoStore 1 none none 10).2 (by omega) (by omega)).1⟩

/-- C1: with a valid `limit` and both `created` and `starting_after`
present (and truthy), the handlers return exactly the
scope-then-date-then-cursor-then-limit pipeline (or 404 when it is
empty); and any list either handler returns is the selected query
variant's result, has at most `limit` elements, and is a sublist of the
stored rows (storage order). -/
theorem weather_pipeline_shape (st : Store) (i : Int) (sa : Option String)
    (created : Option Nat) (limit : Int) :
    (∀ s d, st.up = true → 1 ≤ limit → limit ≤ 100 → sa = some s → s ≠ "" →
      created = some d →
      ((weather st sa created limit).2 =
        (if ((afterId (st.rows.filter fun o => decide (o.date = d)) s).take
            limit.toNat).isEmpty then Outcome.err notFoundBody
         else Outcome.ok ((afterId (st.rows.filter fun o => decide (o.date = d)) s).take
            limit.toNat)) ∧
      (weather_for_station st i sa created limit).2 =
        (if ((afterId (((st.rows.filter fun o => decide (o.station_id = i)).filter
              fun o => decide (o.date = d))) s).take limit.toNat).isEmpty then
          Outcome.err notFoundBody
         else Outcome.ok ((afterId (((st.rows.filter fun o =>
              decide (o.station_id = i)).filter fun o => decide (o.date = d))) s).take
            limit.toNat)))) ∧
    (∀ l, (weather st sa created limit).2 = Outcome.ok l →
      l = select_observations st.rows sa created limit.toNat ∧
      l.length ≤ limit.toNat ∧ l.Sublist st.rows) ∧
    (∀ l, (weather_for_station st i sa created limit).2 = Outcome.ok l →
      l = select_observations_for_station st.rows i sa created limit.toNat ∧
      l.length ≤ limit.toNat ∧ l.Sublist st.rows) := by
  refine ⟨?_, ?_, ?_⟩
  · intro s d hup h1 h2 hsa hs hc
    subst hsa
    subst hc
    have hv : ¬(limit > 100 ∨ limit < 1) := by omega
    have ht : truthy (some s) = true := by simp [truthy, hs]
    constructor
    · rw [weather_eq st (some s) (some d) limit hup hv]
      simp only [select_observations, ht, Option.isSome_some, Bool.and_self,
        get_observations_created_at_starting_after, Option.getD_some, if_true]
      split_ifs <;> rfl
    · rw [weather_for_station_eq st i (some s) (some d) limit hup hv]
      simp only [select_observations_for_station, ht, Option.isSome_some, Bool.and_self,
        get_observations_for_station_created_at_starting_after, station_scope,
        Option.getD_some, if_true]
      split_ifs <;> rfl
  · intro l h
    have hl := weather_ok st sa created limit l h
    subst hl
    exact ⟨rfl, select_observations_length _ _ _ _, select_observations_sublist _ _ _ _⟩
  · intro l h
    have hl := weather_for_station_ok st i sa created limit l h
    subst hl
    exact ⟨rfl, select_observations_for_station_length _ _ _ _ _,
      select_observations_for_station_sublist _ _ _ _ _⟩

theorem weather_pipeline_shape_witness :
    (weather demoStore (some "obs_a") (some 5) 10).2 =
      Outcome.ok [⟨"obs_b", 1, 5⟩] := by
  have h := ((weather_pipeline_shape demoStore 1 (some "obs_a") (some 5) 10).1 "obs_a" 5
    rfl (by omega) (by omega) rfl (by decide) rfl).1
  rw [h]
  decide

lemma nodup_map_id_filter (rows : List ORow) (p : ORow → Bool)
    (h : (rows.map fun o => o.id).Nodup) :
    ((rows.filter p).map fun o => o.id).Nodup :=
  h.sublist ((List.filter_sublist rows).map fun o => o.id)

lemma take_afterId_id_ne {l : List ORow} {s : String} {lim : Nat}
    (hnd : (l.map fun o => o.id).Nodup) :
    ∀ o ∈ (afterId l s).take lim, o.id ≠ s :=
  fun o ho => afterId_id_ne l s hnd o (List.take_subset _ _ ho)

/-- C4: when the observation ids in storage are pairwise distinct and a
non-empty cursor is supplied, no list returned by either weather
handler contains the observation whose id is the cursor: the cursor is
a strict (exclusive) lower bound. -/
theorem cursor_exclusive (st : Store) (i : Int) (sa : Option String)
    (created : Option Nat) (limit : Int) (s : String) (l : List ORow)
    (hnd : (st.rows.map fun o => o.id).Nodup) (hsa : sa = some s) (hs : s ≠ "") :
    ((weather st sa created limit).2 = Outcome.ok l → ∀ o ∈ l, o.id ≠ s) ∧
    ((weather_for_station st i sa created limit).2 = Outcome.ok l →
      ∀ o ∈ l, o.id ≠ s) := by
  subst hsa
  have ht : truthy (some s) = true := by simp [truthy, hs]
  constructor
  · intro h o ho
    have hl := weather_ok st (some s) created limit l h
    subst hl
    cases created with
    | none =>
        simp only [select_observations, ht, Option.isSome_none, Bool.and_false,
          Bool.false_eq_true, if_false, if_true, get_observations_starting_after,
          Option.getD_some] at ho
        exact take_afterId_id_ne hnd o ho
    | some d =>
        simp only [select_observations, ht, Option.isSome_some, Bool.and_self, if_true,
          get_observations_created_at_starting_after, Option.getD_some] at ho
        exact take_afterId_id_ne (nodup_map_id_filter st.rows _ hnd) o ho
  · intro h o ho
    have hl := weather_for_station_ok st i (some s) created limit l h
    subst hl
    cases created with
    | none =>
        simp only [select_observations_for_station, ht, Option.isSome_none,
          Bool.and_false, Bool.false_eq_true, if_false, if_true,
          get_observations_for_station_starting_after, station_scope,
          Option.getD_some] at ho
        exact take_afterId_id_ne (nodup_map_id_filter st.rows _ hnd) o ho
    | some d =>
        simp only [select_observations_for_station, ht, Option.isSome_some,
          Bool.and_self, if_true,
          get_observations_for_station_created_at_starting_after, station_scope,
          Option.getD_some] at ho
        exact take_afterId_id_ne
          (nodup_map_id_filter _ _ (nodup_map_id_filter st.rows _ hnd)) o ho

theorem cursor_exclusive_witness :
    (weather demoStore (some "obs_a") none 10).2 =
      Outcome.ok [⟨"obs_b", 1, 5⟩, ⟨"obs_c", 2, 6⟩] ∧
    (⟨"obs_b", 1, 5⟩ : ORow).id ≠ "obs_a" :=
  ⟨by decide,
   (cursor_exclusive demoStore 1 (some "obs_a") none 10 "obs_a"
      [⟨"obs_b", 1, 5⟩, ⟨"obs_c", 2, 6⟩] (by decide) rfl (by decide)).1 (by decide)
     ⟨"obs_b", 1, 5⟩ (by decide)⟩

/-- Ten observations for station 2 followed by one for station 1, all
created on the same date. -/
def cxRows : List ORow :=
  [⟨"obs_00", 2, 5⟩, ⟨"obs_01", 2, 5⟩, ⟨"obs_02", 2, 5⟩, ⟨"obs_03", 2, 5⟩,
   ⟨"obs_04", 2, 5⟩, ⟨"obs_05", 2, 5⟩, ⟨"obs_06", 2, 5⟩, ⟨"obs_07", 2, 5⟩,
   ⟨"obs_08", 2, 5⟩, ⟨"obs_09", 2, 5⟩, ⟨"obs_10", 1, 5⟩]

/-- A store on which the literal subset claim about
`/stations/1/weather?created=D` versus `/weather?created=D` fails. -/
def cxStore : Store := { rows := cxRows, stations := [], up := true }

/-- C5 counterexample: with the default `limit` of 10, the station-1
request returns `obs_10`, while the global request truncates to the ten
station-2 rows, so its restriction to `station_id = 1` is empty — the
station-scoped result is not a subset of it. -/
theorem station_scope_subset_cex :
    (weather_for_station cxStore 1 none (some 5) 10).2 =
      Outcome.ok [⟨"obs_10", 1, 5⟩] ∧
    (weather cxStore none (some 5) 10).2 = Outcome.ok (cxRows.take 10) ∧
    ¬([(⟨"obs_10", 1, 5⟩ : ORow)] ⊆
        (cxRows.take 10).filter fun o => decide (o.station_id = 1)) := by
  refine ⟨by decide, by decide, ?_⟩
  intro hsub
  have := hsub (List.mem_singleton_self _)
  revert this
  decide

lemma mem_scope_date_filter {rows : List ORow} {i : Int} {d : Nat} {o : ORow}
    (h : o ∈ (station_scope rows i).filter fun o => decide (o.date = d)) :
    o ∈ rows ∧ o.station_id = i ∧ o.date = d := by
  simp only [station_scope, List.mem_filter, decide_eq_true_eq] at h
  exact ⟨h.1.1, h.1.2, h.2⟩

/-- C5 amended: every observation returned by
`/stations/S/weather?created=D` is a stored row with `station_id = S`
whose date is `D` — i.e. the station-scoped result is a subset of the
global date restriction before the `limit` cut (the subset relation
against the limit-truncated `/weather?created=D` result fails, see the
counterexample). -/
theorem station_scope_subset (st : Store) (i : Int) (sa : Option String)
    (created : Option Nat) (limit : Int) (d : Nat) (l : List ORow)
    (hc : created = some d)
    (h : (weather_for_station st i sa created limit).2 = Outcome.ok l) :
    ∀ o ∈ l, o ∈ st.rows ∧ o.station_id = i ∧ o.date = d := by
  subst hc
  have hl := weather_for_station_ok st i sa (some d) limit l h
  subst hl
  intro o ho
  cases hts : truthy sa with
  | true =>
      simp only [select_observations_for_station, hts, Option.isSome_some,
        Bool.and_self, if_true,
        get_observations_for_station_created_at_starting_after,
        Option.getD_some] at ho
      exact mem_scope_date_filter
        (afterId_subset _ _ (List.take_subset _ _ ho))
  | false =>
      simp only [select_observations_for_station, hts, Option.isSome_some,
        Bool.false_and, Bool.false_eq_true, if_false,
        get_observations_for_station_created_at, Option.getD_some] at ho
      exact mem_scope_date_filter (List.take_subset _ _ ho)

theorem station_scope_subset_witness :
    (⟨"obs_10", 1, 5⟩ : ORow) ∈ cxStore.rows ∧
    (⟨"obs_10", 1, 5⟩ : ORow).station_id = 1 ∧ (⟨"obs_10", 1, 5⟩ : ORow).date = 5 :=
  station_scope_subset cxStore 1 none (some 5) 10 5 [⟨"obs_10", 1, 5⟩] rfl (by decide)
    ⟨"obs_10", 1, 5⟩ (by decide)

lemma weather_ok_ne_nil (st : Store) (sa : Option String) (c : Option Nat)
    (limit : Int) (l : List ORow) (h : (weather st sa c limit).2 = Outcome.ok l) :
    l ≠ [] := by
  by_cases hv : limit > 100 ∨ limit < 1
  · simp [weather, hv] at h
  by_cases hup : st.up = true
  · rw [weather_eq st sa c limit hup hv] at h
    split at h
    · simp at h
    · next hemp =>
        have hl : select_observations st.rows sa c limit.toNat = l := by
          simpa using h
        rw [← hl]
        simpa [List.isEmpty_iff] using hemp
  · simp only [Bool.not_eq_true] at hup
    simp [weather, hv, hup] at h

lemma weather_for_station_ok_ne_nil (st : Store) (i : Int) (sa : Option String)
    (c : Option Nat) (limit : Int) (l : List ORow)
    (h : (weather_for_station st i sa c limit).2 = Outcome.ok l) : l ≠ [] := by
  by_cases hv : limit > 100 ∨ limit < 1
  · simp [weather_for_station, hv] at h
  by_cases hup : st.up = true
  · rw [weather_for_station_eq st i sa c limit hup hv] at h
    split at h
    · simp at h
    · next hemp =>
        have hl : select_observations_for_station st.rows i sa c limit.toNat = l := by
          simpa using h
        rw [← hl]
        simpa [List.isEmpty_iff] using hemp
  · simp only [Bool.not_eq_true] at hup
    simp [weather_for_station, hv, hup] at h

/-- C3 counterexample: on a reachable store holding no stations, the
`/stations` handler returns the empty list with no `NotFound` signal —
the handler in `app/main.py` performs no emptiness check at all. -/
theorem stations_empty_list_ok_cex :
    (get_stations_handler emptyStore).2 = Outcome.ok ([] : List StationRow) ∧
    (get_stations_handler emptyStore).2 ≠ Outcome.err notFoundBody := by
  decide

/-- C3 amended: for the two weather collections an empty post-filter row
set yields the fixed `NotFound` body and a returned list is always
non-empty and in storage order; a `starting_after` referencing no
stored observation id yields that same `NotFound` body (never a
distinct cursor error); but `/stations` returns its (possibly empty)
row list as-is with no `NotFound` check. -/
theorem empty_result_not_found (st : Store) (i : Int) (sa : Option String)
    (created : Option Nat) (limit : Int) (s : String) :
    (∀ l, (weather st sa created limit).2 = Outcome.ok l →
      l ≠ [] ∧ l.Sublist st.rows) ∧
    (∀ l, (weather_for_station st i sa created limit).2 = Outcome.ok l →
      l ≠ [] ∧ l.Sublist st.rows) ∧
    (st.up = true → 1 ≤ limit → limit ≤ 100 →
      (select_observations st.rows sa created limit.toNat = [] →
        (weather st sa created limit).2 = Outcome.err notFoundBody) ∧
      (select_observations_for_station st.rows i sa created limit.toNat = [] →
        (weather_for_station st i sa created limit).2 = Outcome.err notFoundBody)) ∧
    (st.up = true → 1 ≤ limit → limit ≤ 100 → sa = some s → s ≠ "" →
      (∀ o ∈ st.rows, o.id ≠ s) →
      (weather st sa created limit).2 = Outcome.err notFoundBody ∧
      (weather_for_station st i sa created limit).2 = Outcome.err notFoundBody) ∧
    (st.up = true → (get_stations_handler st).2 = Outcome.ok st.stations) := by
  refine ⟨?_, ?_, ?_, ?_, ?_⟩
  · intro l h
    exact ⟨weather_ok_ne_nil st sa created limit l h,
      (weather_ok st sa created limit l h) ▸ select_observations_sublist _ _ _ _⟩
  · intro l h
    exact ⟨weather_for_station_ok_ne_nil st i sa created limit l h,
      (weather_for_station_ok st i sa created limit l h) ▸
        select_observations_for_station_sublist _ _ _ _ _⟩
  · intro hup h1 h2
    have hv : ¬(limit > 100 ∨ limit < 1) := by omega
    constructor
    · intro hnil
      rw [weather_eq st sa created limit hup hv, hnil]
      simp
    · intro hnil
      rw [weather_for_station_eq st i sa created limit hup hv, hnil]
      simp
  · intro hup h1 h2 hsa hs hnone
    subst hsa
    have hv : ¬(limit > 100 ∨ limit < 1) := by omega
    have ht : truthy (some s) = true := by simp [truthy, hs]
    constructor
    · rw [weather_eq st (some s) created limit hup hv]
      have hnil : select_observations st.rows (some s) created limit.toNat = [] := by
        cases created with
        | none =>
            simp only [select_observations, ht, Option.isSome_none, Bool.and_false,
              Bool.false_eq_true, if_false, if_true, get_observations_starting_after,
              Option.getD_some]
            rw [afterId_eq_nil st.rows s hnone, List.take_nil]
        | some d =>
            simp only [select_observations, ht, Option.isSome_some, Bool.and_self,
              if_true, get_observations_created_at_starting_after, Option.getD_some]
            rw [afterId_eq_nil _ s
              (fun o ho => hnone o (List.mem_of_mem_filter ho)), List.take_nil]
      rw [hnil]
      simp
    · rw [weather_for_station_eq st i (some s) created limit hup hv]
      have hnil : select_observations_for_station st.rows i (some s) created
          limit.toNat = [] := by
        cases created with
        | none =>
            simp only [select_observations_for_station, ht, Option.isSome_none,
              Bool.and_false, Bool.false_eq_true, if_false, if_true,
              get_observations_for_station_starting_after, station_scope,
              Option.getD_some]
            rw [afterId_eq_nil _ s
              (fun o ho => hnone o (List.mem_of_mem_filter ho)), List.take_nil]
        | some d =>
            simp only [select_observations_for_station, ht, Option.isSome_some,
              Bool.and_self, if_true,
              get_observations_for_station_created_at_starting_after, station_scope,
              Option.getD_some]
            rw [afterId_eq_nil _ s (fun o ho => hnone o
              (List.mem_of_mem_filter (List.mem_of_mem_filter ho))), List.take_nil]
      rw [hnil]
      simp
  · intro hup
    simp [get_stations_handler, hup]

theorem empty_result_not_found_witness :
    (weather demoStore (some "zzz") none 10).2 = Outcome.err notFoundBody ∧
    (get_stations_handler demoStore).2 = Outcome.ok demoStore.stations :=
  ⟨((empty_result_not_found demoStore 1 (some "zzz") none 10 "zzz").2.2.2.1 rfl
      (by omega) (by omega) rfl (by decide) (by decide)).1,
   (empty_result_not_found demoStore 1 (some "zzz") none 10 "zzz").2.2.2.2 rfl⟩

/-- C6: single-row contract of `GET /stations/{id}` — no stored station
with the requested id yields the fixed `NotFound` body; when exactly
one stored row carries the id, that row is returned. -/
theorem station_lookup_contract (st : Store) (i : Int) (hup : st.up = true) :
    ((∀ r ∈ st.stations, r.id ≠ i) →
      (get_station_handler st i).2 = Outcome.err notFoundBody) ∧
    (∀ r, r ∈ st.stations → r.id = i →
      (∀ r2 ∈ st.stations, r2.id = i → r2 = r) →
      (get_station_handler st i).2 = Outcome.ok r) := by
  constructor
  · intro hnone
    have hfind : st.stations.find? (fun r => decide (r.id = i)) = none := by
      rw [List.find?_eq_none]
      intro r hr
      simp [hnone r hr]
    simp [get_station_handler, hup, hfind]
  · intro r hr hri huniq
    have hsome : (st.stations.find? (fun r => decide (r.id = i))).isSome := by
      rw [List.find?_isSome]
      exact ⟨r, hr, by simp [hri]⟩
    obtain ⟨r', heq⟩ := Option.isSome_iff_exists.mp hsome
    have hp : r'.id = i := by
      have := List.find?_some heq
      simpa using this
    have hmem := List.mem_of_find?_eq_some heq
    have hrr : r' = r := huniq r' hmem hp
    subst hrr
    simp [get_station_handler, hup, heq]

theorem station_lookup_contract_witness :
    (get_station_handler demoStore 99).2 = Outcome.err notFoundBody ∧
    (get_station_handler demoStore 2).2 = Outcome.ok ⟨2, "south"⟩ :=
  ⟨(station_lookup_contract demoStore 99 rfl).1 (by decide),
   (station_lookup_contract demoStore 2 rfl).2 ⟨2, "south"⟩ (by decide) rfl (by decide)⟩

/-- C9 counterexample: on a store whose query raises, the `/weather`
handler's connection trace is `[connect, query]` — the connection is
never closed (there is no try/finally around `conn.close()` in
`app/main.py`); and on a validation failure no connection is acquired
at all, so neither path acquires-and-closes exactly one connection. -/
theorem connection_close_cex :
    (weather downStore none none 10).1 = [Ev.connect, Ev.query] ∧
    Ev.close ∉ (weather downStore none none 10).1 ∧
    (weather demoStore none none 101).1 = [] := by
  decide

/-- C9 amended: when validation fails, no connection is acquired; on
every request that passes validation exactly one connection is
acquired and used for exactly one query, and it is closed before the
response exactly when the query returns (success, empty result, or the
station handlers); when the query raises, the connection is abandoned
unclosed. -/
theorem connection_trace (st : Store) (i : Int) (sa : Option String)
    (created : Option Nat) (limit : Int) :
    (1 ≤ limit → limit ≤ 100 → st.up = true →
      (weather st sa created limit).1 = [Ev.connect, Ev.query, Ev.close] ∧
      (weather_for_station st i sa created limit).1 =
        [Ev.connect, Ev.query, Ev.close]) ∧
    (1 ≤ limit → limit ≤ 100 → st.up = false →
      (weather st sa created limit).1 = [Ev.connect, Ev.query] ∧
      (weather_for_station st i sa created limit).1 = [Ev.connect, Ev.query]) ∧
    ((limit > 100 ∨ limit < 1) →
      (weather st sa created limit).1 = [] ∧
      (weather_for_station st i sa created limit).1 = []) ∧
    (get_stations_handler st).1 =
      (if st.up then [Ev.connect, Ev.query, Ev.close]
       else [Ev.connect, Ev.query]) ∧
    (get_station_handler st i).1 =
      (if st.up then [Ev.connect, Ev.query, Ev.close]
       else [Ev.connect, Ev.query]) := by
  refine ⟨?_, ?_, ?_, ?_, ?_⟩
  · intro h1 h2 hup
    have hv : ¬(limit > 100 ∨ limit < 1) := by omega
    constructor
    · rw [weather_eq st sa created limit hup hv]
      split <;> rfl
    · rw [weather_for_station_eq st i sa created limit hup hv]
      split <;> rfl
  · intro h1 h2 hup
    have hv : ¬(limit > 100 ∨ limit < 1) := by omega
    constructor <;> simp [weather, weather_for_station, hv, hup]
  · intro h
    constructor <;> simp [weather, weather_for_station, h]
  · cases hup : st.up <;> simp [get_stations_handler, hup]
  · cases hup : st.up
    · simp [get_station_handler, hup]
    · cases hfind : st.stations.find? (fun r => decide (r.id = i)) <;>
        simp [get_station_handler, hup, hfind]

theorem connection_trace_witness :
    (weather demoStore none none 10).1 = [Ev.connect, Ev.query, Ev.close] ∧
    (weather downStore none none 10).1 = [Ev.connect, Ev.query] :=
  ⟨((connection_trace demoStore 1 none none 10).1 (by omega) (by omega) rfl).1,
   ((connection_trace downStore 1 none none 10).2.1 (by omega) (by omega) rfl).1⟩

/-- Inverse of `svalToJ`, used to show that serialization collapses no
two distinct field values. -/
def jToSval : JVal → SVal
  | .null => none
  | .jint n => some (.i n)
  | .jnum q => some (.r q)
  | .jstr s => some (.s s)

lemma jToSval_svalToJ (a : SVal) : jToSval (svalToJ a) = a := by
  rcases a with _ | b
  · rfl
  · rcases b <;> rfl

/-- The materialized value of the demonstration row used by the
materialization witnesses. -/
def demoObs : Observation :=
  { id := "obs_1"
    station_id := 1
    observation_time := "2019-07-11 10:00:00"
    temperature_average := none
    temperature_high := some (.i 70)
    temperature_low := none
    humidity_average := some (.i 55)
    barometric_pressure := none
    wind_speed_average := some (.i 3)
    wind_speed_high := some (.i 9)
    wind_direction_high := none
    wind_direction_average := none
    radiation_average := some (.i 100)
    radiation_high := some (.i 200)
    rain := some (.i 0)
    rain_last_hour := some (.i 0)
    temperature_soil_2 := none
    temperature_soil_5 := some (.i 20)
    temperature_soil_10 := some (.i 21)
    temperature_soil_15 := some (.i 22)
    moisture_soil_2 := some (.i 30)
    moisture_soil_5 := some (.i 31)
    moisture_soil_10 := none
    moisture_soil_15 := some (.i 33) }

/-- C7: materialization is positional — whenever a row materializes
into an `Observation`, the i-th column fed through the i-th declared
field's validator gives the i-th field (never a named-column lookup) —
and an empty-string value in a nullable sensor column becomes null,
not a string and not zero; likewise for the four `Station` columns. -/
theorem materialize_positional (v0 v1 v2 v3 v4 v5 v6 v7 v8 v9 v10 v11 v12 v13 v14 v15
    v16 v17 v18 v19 v20 v21 v22 v23 : RawVal) (rest : List RawVal) (o : Observation)
    (h : materializeObservation (v0 :: v1 :: v2 :: v3 :: v4 :: v5 :: v6 :: v7 :: v8 ::
      v9 :: v10 :: v11 :: v12 :: v13 :: v14 :: v15 :: v16 :: v17 :: v18 :: v19 :: v20 ::
      v21 :: v22 :: v23 :: rest) = some o) :
    strField v0 = some o.id ∧ intField v1 = some o.station_id ∧
    datetimeField v2 = some o.observation_time ∧
    obsSensorFields o =
      [sensorIntVal v3, sensorIntVal v4, sensorIntVal v5, sensorIntVal v6,
       sensorFloatVal v7, sensorIntVal v8, sensorIntVal v9, sensorFloatVal v10,
       sensorFloatVal v11, sensorIntVal v12, sensorIntVal v13, sensorIntVal v14,
       sensorIntVal v15, sensorIntVal v16, sensorIntVal v17, sensorIntVal v18,
       sensorIntVal v19, sensorIntVal v20, sensorIntVal v21, sensorIntVal v22,
       sensorIntVal v23] ∧
    sensorIntVal (RawVal.textV "") = none ∧
    sensorFloatVal (RawVal.textV "") = none ∧
    (∀ (w0 w1 w2 w3 : RawVal) (rest2 : List RawVal) (stn : Station),
      materializeStation (w0 :: w1 :: w2 :: w3 :: rest2) = some stn →
      intField w0 = some stn.id ∧ strField w1 = some stn.name ∧
      floatField w2 = some stn.latitude ∧ floatField w3 = some stn.longitude) := by
  cases h0 : strField v0 with
  | none => simp [materializeObservation, h0] at h
  | some idv =>
  cases h1 : intField v1 with
  | none => simp [materializeObservation, h0, h1] at h
  | some sid =>
  cases h2 : datetimeField v2 with
  | none => simp [materializeObservation, h0, h1, h2] at h
  | some ot =>
  simp only [materializeObservation, h0, h1, h2] at h
  have ho := Option.some.inj h
  subst ho
  refine ⟨rfl, rfl, rfl, rfl, by decide, by decide, ?_⟩
  intro w0 w1 w2 w3 rest2 stn hstn
  cases g0 : intField w0 with
  | none => simp [materializeStation, g0] at hstn
  | some idw =>
  cases g1 : strField w1 with
  | none => simp [materializeStation, g0, g1] at hstn
  | some nw =>
  cases g2 : floatField w2 with
  | none => simp [materializeStation, g0, g1, g2] at hstn
  | some latw =>
  cases g3 : floatField w3 with
  | none => simp [materializeStation, g0, g1, g2, g3] at hstn
  | some lonw =>
  simp only [materializeStation, g0, g1, g2, g3] at hstn
  have hs := Option.some.inj hstn
  subst hs
  exact ⟨rfl, rfl, rfl, rfl⟩

theorem materialize_positional_witness :
    strField (RawVal.textV "obs_1") = some demoObs.id ∧
    demoObs.temperature_average = none ∧
    sensorIntVal (RawVal.textV "") = none := by
  have h := materialize_positional (RawVal.textV "obs_1") (RawVal.intV 1)
    (RawVal.textV "2019-07-11 10:00:00") (RawVal.textV "") (RawVal.intV 70) RawVal.null
    (RawVal.intV 55) RawVal.null (RawVal.intV 3) (RawVal.intV 9)
    RawVal.null RawVal.null (RawVal.intV 100) (RawVal.intV 200)
    (RawVal.intV 0) (RawVal.intV 0) (RawVal.textV "") (RawVal.intV 20) (RawVal.intV 21)
    (RawVal.intV 22) (RawVal.intV 30) (RawVal.intV 31) RawVal.null (RawVal.intV 33)
    [] demoObs (by decide)
  exact ⟨h.1, by decide, h.2.2.2.2.1⟩

/-- C8: round-trip — materializing a row and re-serializing the entity
emits all declared fields, in declaration order, each carrying exactly
the validated value of its column (absent readings, including those
from empty-string normalization, appear as JSON null), and
serialization collapses no two distinct field values. -/
theorem roundtrip_serialize :
    (∀ (v0 v1 v2 v3 v4 v5 v6 v7 v8 v9 v10 v11 v12 v13 v14 v15 v16 v17 v18 v19 v20 v21
        v22 v23 : RawVal) (rest : List RawVal) (o : Observation),
      materializeObservation (v0 :: v1 :: v2 :: v3 :: v4 :: v5 :: v6 :: v7 :: v8 ::
        v9 :: v10 :: v11 :: v12 :: v13 :: v14 :: v15 :: v16 :: v17 :: v18 :: v19 ::
        v20 :: v21 :: v22 :: v23 :: rest) = some o →
      serializeObservation o =
        [("id", JVal.jstr o.id), ("station_id", JVal.jint o.station_id),
         ("observation_time", JVal.jstr o.observation_time),
         ("temperature_average", svalToJ (sensorIntVal v3)),
         ("temperature_high", svalToJ (sensorIntVal v4)),
         ("temperature_low", svalToJ (sensorIntVal v5)),
         ("humidity_average", svalToJ (sensorIntVal v6)),
         ("barometric_pressure", svalToJ (sensorFloatVal v7)),
         ("wind_speed_average", svalToJ (sensorIntVal v8)),
         ("wind_speed_high", svalToJ (sensorIntVal v9)),
         ("wind_direction_high", svalToJ (sensorFloatVal v10)),
         ("wind_direction_average", svalToJ (sensorFloatVal v11)),
         ("radiation_average", svalToJ (sensorIntVal v12)),
         ("radiation_high", svalToJ (sensorIntVal v13)),
         ("rain", svalToJ (sensorIntVal v14)),
         ("rain_last_hour", svalToJ (sensorIntVal v15)),
         ("temperature_soil_2", svalToJ (sensorIntVal v16)),
         ("temperature_soil_5", svalToJ (sensorIntVal v17)),
         ("temperature_soil_10", svalToJ (sensorIntVal v18)),
         ("temperature_soil_15", svalToJ (sensorIntVal v19)),
         ("moisture_soil_2", svalToJ (sensorIntVal v20)),
         ("moisture_soil_5", svalToJ (sensorIntVal v21)),
         ("moisture_soil_10", svalToJ (sensorIntVal v22)),
         ("moisture_soil_15", svalToJ (sensorIntVal v23))] ∧
      (serializeObservation o).map Prod.fst = observationFieldNames) ∧
    (∀ (w0 w1 w2 w3 : RawVal) (rest2 : List RawVal) (stn : Station),
      materializeStation (w0 :: w1 :: w2 :: w3 :: rest2) = some stn →
      serializeStation stn =
        [("id", JVal.jint stn.id), ("name", JVal.jstr stn.name),
         ("latitude", JVal.jnum stn.latitude), ("longitude", JVal.jnum stn.longitude)] ∧
      (serializeStation stn).map Prod.fst = stationFieldNames) ∧
    svalToJ none = JVal.null ∧
    (∀ a b : SVal, svalToJ a = svalToJ b → a = b) := by
  refine ⟨?_, ?_, rfl, ?_⟩
  · intro v0 v1 v2 v3 v4 v5 v6 v7 v8 v9 v10 v11 v12 v13 v14 v15 v16 v17 v18 v19 v20
      v21 v22 v23 rest o h
    cases h0 : strField v0 with
    | none => simp [materializeObservation, h0] at h
    | some idv =>
    cases h1 : intField v1 with
    | none => simp [materializeObservation, h0, h1] at h
    | some sid =>
    cases h2 : datetimeField v2 with
    | none => simp [materializeObservation, h0, h1, h2] at h
    | some ot =>
    simp only [materializeObservation, h0, h1, h2] at h
    have ho := Option.some.inj h
    subst ho
    exact ⟨rfl, rfl⟩
  · intro w0 w1 w2 w3 rest2 stn hstn
    cases g0 : intField w0 with
    | none => simp [materializeStation, g0] at hstn
    | some idw =>
    cases g1 : strField w1 with
    | none => simp [materializeStation, g0, g1] at hstn
    | some nw =>
    cases g2 : floatField w2 with
    | none => simp [materializeStation, g0, g1, g2] at hstn
    | some latw =>
    cases g3 : floatField w3 with
    | none => simp [materializeStation, g0, g1, g2, g3] at hstn
    | some lonw =>
    simp only [materializeStation, g0, g1, g2, g3] at hstn
    have hs := Option.some.inj hstn
    subst hs
    exact ⟨rfl, rfl⟩
  · intro a b hab
    rw [← jToSval_svalToJ a, ← jToSval_svalToJ b, hab]

theorem roundtrip_serialize_witness :
    (serializeObservation demoObs).map Prod.fst = observationFieldNames ∧
    (serializeObservation demoObs)[3]? =
      some ("temperature_average", JVal.null) := by
  have h := roundtrip_serialize.1 (RawVal.textV "obs_1") (RawVal.intV 1)
    (RawVal.textV "2019-07-11 10:00:00") (RawVal.textV "") (RawVal.intV 70) RawVal.null
    (RawVal.intV 55) RawVal.null (RawVal.intV 3) (RawVal.intV 9)
    RawVal.null RawVal.null (RawVal.intV 100) (RawVal.intV 200)
    (RawVal.intV 0) (RawVal.intV 0) (RawVal.textV "") (RawVal.intV 20) (RawVal.intV 21)
    (RawVal.intV 22) (RawVal.intV 30) (RawVal.intV 31) RawVal.null (RawVal.intV 33)
    [] demoObs (by decide)
  refine ⟨h.2, ?_⟩
  rw [h.1]
  decide
